import Mathlib

/-!
Shallow embedding of the `lunar-logger` crate (src/lib.rs, src/builder.rs):
a process-wide logging facade with per-source filter rules, a default
severity threshold, console and optional file sinks, and a one-time global
registration step.  File-system and global-singleton effects are modelled
by explicit state passing over a `World` record.
-/

set_option autoImplicit false

/-- Mirror of `log::LevelFilter` from the Rust `log` crate: the ordering used
by the source (`msg_level > *level`, `Iterator::max`) is the derived
discriminant order `Off < Error < Warn < Info < Debug < Trace`. -/
inductive LevelFilter where
  | Off
  | Error
  | Warn
  | Info
  | Debug
  | Trace
deriving DecidableEq, Repr

/-- Discriminant rank of a `log::LevelFilter`, the key of its derived `Ord`. -/
def LevelFilter.rank : LevelFilter → Nat
  | .Off => 0
  | .Error => 1
  | .Warn => 2
  | .Info => 3
  | .Debug => 4
  | .Trace => 5

/-- Mirror of `lunar_logger::FilterType`: `Module` filters by module-segment
name, `Crate` by the crate (first) component. -/
inductive FilterType where
  | Module
  | Crate
deriving DecidableEq, Repr

/-- Mirror of `lunar_logger::LoggerError` (the `std::io::Error` payload of
`FileError` is dropped). -/
inductive LoggerError where
  | LoggerAlreadySet
  | FileError
  | InvalidFiname
deriving DecidableEq, Repr

/-- A file-system path, as its list of components (`Path::parent` drops the
last component and is undefined on an empty path). -/
abbrev LogPath := List String

/-- Mirror of `std::path::Path::parent`: `None` on an empty path, otherwise
the path with its last component removed. -/
def LogPath.parent : LogPath → Option LogPath
  | [] => none
  | p => some p.dropLast

/-- Mirror of `lunar_logger::Logger` (the `RwLock<std::fs::File>` handle is
modelled by its presence, `Option Unit`). -/
structure Logger where
  filters : List (String × FilterType × LevelFilter)
  log_to_file : Bool
  log_filename : LogPath
  default_level : LevelFilter
  time_format : String
  log_file : Option Unit
  use_color : Bool
deriving DecidableEq, Repr

/-- Mirror of `Logger::new`.  `generate_log_name()` reads the environment
(`USER`) and the wall clock, so the generated default path is a parameter. -/
def Logger.new (generated_name : LogPath) : Logger where
  filters := []
  log_to_file := false
  log_filename := generated_name
  default_level := .Info
  time_format := "%Y-%m-%d %H:%M:%S"
  log_file := none
  use_color := true

/-- Structural model of Rust `str::split("::")`: scan left to right, each
leftmost occurrence of the two-character separator `::` ends a component.
The empty string yields the single component `""`. -/
def splitCols : List Char → List (List Char)
  | [] => [[]]
  | ':' :: ':' :: rest => [] :: splitCols rest
  | c :: rest =>
    match splitCols rest with
    | [] => [c] :: []
    | r :: rs => (c :: r) :: rs

/-- The component list of a source identifier: `data.split("::")`. -/
def split_target (data : String) : List String :=
  (splitCols data.toList).map (fun l => l.asString)

/-- Mirror of the free function `filter` in src/lib.rs: split the target on
`::`; the first component (`split.next().unwrap()`) is the crate name; a
`Module` filter matches when the pattern equals any of the remaining
components, a `Crate` filter when it equals the crate name. -/
def filter (pattern : String) (filter_type : FilterType) (data : String) : Bool :=
  let split := split_target data
  let crate_name := split.headD ""
  match filter_type with
  | .Module => split.tail.any (fun x => x == pattern)
  | .Crate => crate_name == pattern

/-- The `for (name, filter_type, level) in &self.filters` loop of
`Logger::log`: `some false` models the early `return` on a matched rule that
rejects (`msg_level > *level`), `some true` the `filtered = true; break`
path, `none` falling off the loop with no rule matched. -/
def filterLoop
    (filters : List (String × FilterType × LevelFilter))
    (target : String) (msg_level : LevelFilter) : Option Bool :=
  match filters with
  | [] => none
  | (name, filter_type, level) :: rest =>
    if filter name filter_type target then
      if level.rank < msg_level.rank then some false else some true
    else
      filterLoop rest target msg_level

/-- The accept/reject decision of `Logger::log`: the first matching rule
decides, otherwise the message is accepted iff it is not less severe than
`default_level` (`!filtered && msg_level > self.default_level` rejects). -/
def log_decision
    (filters : List (String × FilterType × LevelFilter))
    (default_level : LevelFilter)
    (target : String) (msg_level : LevelFilter) : Bool :=
  match filterLoop filters target msg_level with
  | some b => b
  | none => !(default_level.rank < msg_level.rank)

/-- The accept/reject decision of `Logger::log` for a logger value. -/
def Logger.logAccept (l : Logger) (target : String) (msg_level : LevelFilter) : Bool :=
  log_decision l.filters l.default_level target msg_level

/-- Mirror of `const fn get_color` in src/lib.rs. -/
def get_color (level : LevelFilter) : String :=
  match level with
  | .Off => ""
  | .Error => "\x1b[31m"
  | .Warn => "\x1b[33m"
  | .Info => "\x1b[32m"
  | .Debug => "\x1b[35m"
  | .Trace => "\x1b[36m"

/-- Mirror of `const fn format_level` in src/lib.rs. -/
def format_level (level : LevelFilter) : String :=
  match level with
  | .Off => ""
  | .Error => "ERROR"
  | .Warn => "WARN "
  | .Info => "INFO "
  | .Debug => "DEBUG"
  | .Trace => "TRACE"

/-- The two `format!` lines of `Logger::log` (`get_time` is external, so the
timestamp string is a parameter). -/
def format_output (use_color : Bool) (time color level_str target msg : String) : String :=
  if use_color then
    s!"\x1b[90m[\x1b[0m{time} {color}{level_str} \x1b[0m{target}\x1b[90m]\x1b[0m {msg}\n"
  else
    s!"[{time} {level_str} {target}] {msg}\n"

/-- Observable effects of one `Logger::log` call: lines printed to stdout,
byte strings handed to the file handle, and records re-emitted through the
logging pipeline (the `log::error!` on a failed file write), as
(severity, message) pairs. -/
structure LogOutput where
  console : List String
  file_writes : List String
  reemitted : List (LevelFilter × String)
deriving DecidableEq, Repr

/-- Mirror of `Logger::log` (`impl log::Log for Logger`).  `time` stands for
`get_time(&self.time_format)` (external wall clock); `file_write_fails`
stands for the result of `f.write().unwrap().write(..)` on the file handle.
A rejected record produces no effects; an accepted one is formatted, written
to the file handle when present (a failure being re-reported via
`log::error!` at Error severity), and always printed to stdout. -/
def Logger.logRun (l : Logger) (target : String) (msg_level : LevelFilter)
    (msg : String) (time : String) (file_write_fails : Bool) : LogOutput :=
  if l.logAccept target msg_level then
    let color := get_color msg_level
    let level_str := format_level msg_level
    let output := format_output l.use_color time color level_str target msg
    match l.log_file with
    | some _ =>
      if file_write_fails then
        { console := [output], file_writes := [output],
          reemitted := [(.Error, "Failed to write to a file")] }
      else
        { console := [output], file_writes := [output], reemitted := [] }
    | none => { console := [output], file_writes := [], reemitted := [] }
  else
    { console := [], file_writes := [], reemitted := [] }

/-- Mirror of `Logger::enabled` (`impl log::Log`): metadata is a severity
and a target string; the method ignores both. -/
def Logger.enabled (_l : Logger) (_level : LevelFilter) (_target : String) : Bool :=
  true

/-- Mirror of `Logger::add_filter`. -/
def Logger.add_filter (l : Logger) (module_name : String)
    (filter_type : FilterType) (level : LevelFilter) : Logger :=
  { l with filters := l.filters ++ [(module_name, filter_type, level)] }

/-- Mirror of `Logger::set_default_filter`. -/
def Logger.set_default_filter (l : Logger) (level : LevelFilter) : Logger :=
  { l with default_level := level }

/-- Mirror of `Logger::set_log_to_file`. -/
def Logger.set_log_to_file (l : Logger) : Logger :=
  { l with log_to_file := true }

/-- Mirror of `Logger::set_timestamp_format`. -/
def Logger.set_timestamp_format (l : Logger) (format : String) : Logger :=
  { l with time_format := format }

/-- Mirror of `Logger::use_color` (the setter). -/
def Logger.set_use_color (l : Logger) (value : Bool) : Logger :=
  { l with use_color := value }

/-- Process-wide state touched by `enable_logger`: the file system (file
contents by path, plus which paths are directories), the `INTERNAL_LOGGER`
`OnceLock`, the `log` crate's max-level gate (`log::set_max_level` /
`log::max_level`, initially `Off`), and whether `log::set_logger` has
already installed a logger. -/
structure World where
  files : LogPath → Option String
  is_dir : LogPath → Bool
  internal_logger : Option Logger
  max_level : LevelFilter
  log_registered : Bool

/-- Mirror of `Logger::set_log_file_name`: errors with `InvalidFiname` when
the path is a directory, otherwise stores it. -/
def Logger.set_log_file_name (l : Logger) (w : World) (filename : LogPath) :
    Except LoggerError Logger :=
  if w.is_dir filename then .error .InvalidFiname
  else .ok { l with log_filename := filename }

/-- Mirror of the free function `create_file` in src/lib.rs: error when the
path has no parent (or is a directory, the I/O failure of
`std::fs::File::create` on a directory); otherwise `create_dir_all` the
parent and `File::create` the file — which creates it if absent and
truncates it to empty if present. -/
def create_file (w : World) (path : LogPath) : Except Unit World :=
  match path.parent with
  | none => .error ()
  | some _parent =>
    if w.is_dir path then .error ()
    else .ok { w with files := fun p => if p = path then some "" else w.files p }

/-- Mirror of the `OpenOptions::new().write(true).create(true).truncate(false)
.open(..)` call in `enable_logger`: fails on a directory; creates the file
empty if absent; does not truncate existing content. -/
def open_no_trunc (w : World) (path : LogPath) : Except Unit World :=
  if w.is_dir path then .error ()
  else .ok { w with
    files := fun p => if p = path then some ((w.files path).getD "") else w.files p }

/-- Mirror of the Rust `Ord::max` on `log::LevelFilter` (discriminant
order). -/
def lf_max (a b : LevelFilter) : LevelFilter :=
  if a.rank < b.rank then b else a

/-- Mirror of `Iterator::max` over the filter levels
(`self.filters.iter().map(|i| i.2).max()`). -/
def max_filter_level : List (String × FilterType × LevelFilter) → Option LevelFilter
  | [] => none
  | f :: rest =>
    some (match max_filter_level rest with
      | none => f.2.2
      | some m => lf_max f.2.2 m)

/-- The `max_level` computation of `enable_logger`:
`filters.map(|i| i.2).max().unwrap_or(default_level).max(default_level)`. -/
def Logger.maxLevel (l : Logger) : LevelFilter :=
  lf_max ((max_filter_level l.filters).getD l.default_level) l.default_level

/-- The tail of `enable_logger` after the file was opened: set the `log`
crate's max-level gate, then try to install into the `INTERNAL_LOGGER`
`OnceLock` (fails if occupied) and register with `log::set_logger` (fails if
a logger is already registered). -/
def enable_logger_tail (l : Logger) (w : World) : Except LoggerError Unit × World :=
  let max_level := l.maxLevel
  let w := { w with max_level := max_level }
  if w.internal_logger.isSome then (.error .LoggerAlreadySet, w)
  else
    let w := { w with internal_logger := some l }
    if w.log_registered then (.error .LoggerAlreadySet, w)
    else (.ok (), { w with log_registered := true })

/-- Mirror of `Logger::enable_logger`: when `log_to_file` is set, run
`create_file` then the non-truncating open (each failure returning
`FileError`), store the handle, then the max-level / registration tail. -/
def Logger.enable_logger (l : Logger) (w : World) : Except LoggerError Unit × World :=
  if l.log_to_file then
    match create_file w l.log_filename with
    | .error _ => (.error .FileError, w)
    | .ok w1 =>
      match open_no_trunc w1 l.log_filename with
      | .error _ => (.error .FileError, w1)
      | .ok w2 => enable_logger_tail { l with log_file := some () } w2
  else
    enable_logger_tail l w

/-- Mirror of `lunar_logger::Builder`. -/
structure Builder where
  crate_filters : List (String × LevelFilter)
  mod_filters : List (String × LevelFilter)
  default_level : LevelFilter
  log_to_file : Bool
  log_filename : Option LogPath
  time_format : String
  use_color : Bool
deriving DecidableEq, Repr

/-- Mirror of `Builder::new`. -/
def Builder.new : Builder where
  crate_filters := []
  mod_filters := []
  default_level := .Info
  log_to_file := false
  log_filename := none
  time_format := ""
  use_color := true

/-- Mirror of `Builder::create` (non-wasm path): builds the `Logger` from
the accumulated options; `none` models the panic of the
`set_log_file_name(&f).unwrap()` call when the stored filename is a
directory. -/
def Builder.create (b : Builder) (w : World) (generated_name : LogPath) :
    Option Logger :=
  let logger := Logger.new generated_name
  let logger := { logger with use_color := b.use_color }
  let logger := logger.set_default_filter b.default_level
  let logger := b.crate_filters.foldl
    (fun l f => l.add_filter f.1 .Crate f.2) logger
  let logger := b.mod_filters.foldl
    (fun l f => l.add_filter f.1 .Module f.2) logger
  let logger :=
    if b.time_format ≠ "" then logger.set_timestamp_format b.time_format else logger
  if b.log_to_file then
    let logger := logger.set_log_to_file
    match b.log_filename with
    | some f =>
      match logger.set_log_file_name w f with
      | .ok logger2 => some logger2
      | .error _ => none
    | none => some logger
  else
    some logger

/-- A process start state: empty file system, no directories, no logger
installed, gate at its `log` crate initial value `Off`. -/
def fresh_world : World where
  files := fun _ => none
  is_dir := fun _ => false
  internal_logger := none
  max_level := .Off
  log_registered := false

/-- A start state whose file system already holds `log.txt` with content
`"hello"`. -/
def hello_world : World :=
  { fresh_world with
    files := fun p => if p = ["log.txt"] then some "hello" else none }

/-- A logger configured to log to the pre-existing file `log.txt`. -/
def file_logger : Logger :=
  { Logger.new ["gen.log"] with log_to_file := true, log_filename := ["log.txt"] }

/-- A default logger (default threshold `Info`), first to be enabled. -/
def first_logger : Logger := Logger.new ["gen.log"]

/-- A logger with default threshold `Trace`, enabled second. -/
def second_logger : Logger :=
  { Logger.new ["gen.log"] with default_level := .Trace }

/-- The world after the first successful enable. -/
def world_after_first : World := (first_logger.enable_logger fresh_world).2

/-- A start state in which the path `logs` is a directory. -/
def dir_world : World :=
  { fresh_world with is_dir := fun p => p = ["logs"] }

/-- A builder whose log filename is the directory `logs`. -/
def dir_builder : Builder :=
  { Builder.new with log_to_file := true, log_filename := some ["logs"] }

/-- A logger holding an open file handle (as after a successful file-logging
enable). -/
def sink_logger : Logger :=
  { Logger.new ["gen.log"] with log_file := some () }

/-- Rules that match nothing in the scanned part of the list are skipped:
the filter loop over `pre ++ rest` behaves as the loop over `rest` when no
rule of `pre` matches the target. -/
theorem filterLoop_append
    (pre rest : List (String × FilterType × LevelFilter))
    (target : String) (msg_level : LevelFilter)
    (h : ∀ r ∈ pre, filter r.1 r.2.1 target = false) :
    filterLoop (pre ++ rest) target msg_level = filterLoop rest target msg_level := by
  induction pre with
  | nil => rfl
  | cons a as ih =>
    obtain ⟨name, filter_type, level⟩ := a
    have ha : filter name filter_type target = false :=
      h (name, filter_type, level) (List.mem_cons_self _ _)
    have ih2 := ih (fun r hr => h r (List.mem_cons_of_mem _ hr))
    simpa [filterLoop, ha] using ih2

/-- When no rule matches the target, the filter loop falls through. -/
theorem filterLoop_none
    (filters : List (String × FilterType × LevelFilter))
    (target : String) (msg_level : LevelFilter)
    (h : ∀ r ∈ filters, filter r.1 r.2.1 target = false) :
    filterLoop filters target msg_level = none := by
  have := filterLoop_append filters [] target msg_level h
  simpa using this

/-- C5 counterexample: the pattern `a` equals the first component of the
source identifier `a::b`, yet a `Module` (source-segment) rule on `a` does
not match it — the first component is not a candidate for segment matching,
contradicting the claim that every component is. -/
theorem c5_first_component_not_segment_cex :
    split_target "a::b" = ["a", "b"] ∧
    filter "a" FilterType.Module "a::b" = false := by
  decide

/-- C5 (amended): a `SourceSegment` (`Module`) rule matches iff its pattern
equals one of the components after the first — the first (owning-unit)
component is consumed as the crate name and is not a candidate for segment
matching. -/
theorem c5_segment_matches_tail_only :
    ∀ (pattern data : String),
      filter pattern FilterType.Module data = true ↔
        pattern ∈ (split_target data).tail := by
  intro pattern data
  simp [filter, List.any_eq_true]

/-- C6: a `SourcePrefix` (`Crate`) rule matches iff its pattern equals the
first component of the source identifier exactly; for `a::b::c` a `Module`
rule on `b` matches while a `Crate` rule on `b` does not (only one on `a`
does). -/
theorem c6_crate_matches_first_component :
    (∀ (pattern data : String),
       filter pattern FilterType.Crate data = true ↔
         (split_target data).headD "" = pattern) ∧
    filter "b" FilterType.Module "a::b::c" = true ∧
    filter "b" FilterType.Crate "a::b::c" = false ∧
    filter "a" FilterType.Crate "a::b::c" = true := by
  refine ⟨fun pattern data => ?_, by decide, by decide, by decide⟩
  simp [filter, beq_iff_eq]

/-- C9 counterexample: the empty source identifier splits into the single
empty component, so a `Crate` rule with the empty pattern does match it; the
decision for such a rule set is made by that rule (rejecting an `Info`
record under its `Error` threshold) and does not fall through to the
(`Trace`) default, contradicting the claim that the empty identifier
matches no rule under every rule set. -/
theorem c9_empty_source_matches_empty_crate_rule_cex :
    filter "" FilterType.Crate "" = true ∧
    filterLoop [("", FilterType.Crate, LevelFilter.Error)] "" LevelFilter.Info = some false ∧
    log_decision [("", FilterType.Crate, LevelFilter.Error)] LevelFilter.Trace ""
      LevelFilter.Info = false := by
  decide

/-- C9 (amended): the empty source identifier yields the single-component
list containing the empty string; it matches no `Module` rule, and matches a
`Crate` rule iff that rule's pattern is the empty string; hence for every
rule set containing no `Crate` rule with empty pattern, the decision falls
through to the default threshold. -/
theorem c9_empty_source_amended :
    split_target "" = [""] ∧
    (∀ pattern : String, filter pattern FilterType.Module "" = false) ∧
    (∀ pattern : String, filter pattern FilterType.Crate "" = true ↔ pattern = "") ∧
    (∀ (filters : List (String × FilterType × LevelFilter))
       (default_level msg_level : LevelFilter),
       (∀ r ∈ filters, r.2.1 = FilterType.Crate → r.1 ≠ "") →
       log_decision filters default_level "" msg_level =
         !(default_level.rank < msg_level.rank)) := by
  have hsplit : split_target "" = [""] := by decide
  refine ⟨by decide, fun pattern => by simp [filter, hsplit],
    fun pattern => by
      simp [filter, hsplit]
      exact ⟨fun h => h.symm, fun h => h.symm⟩, ?_⟩
  intro filters default_level msg_level h
  have hnone : filterLoop filters "" msg_level = none := by
    refine filterLoop_none filters "" msg_level (fun r hr => ?_)
    obtain ⟨name, filter_type, level⟩ := r
    cases filter_type with
    | Module => simp [filter, hsplit]
    | Crate =>
      have hne : name ≠ "" := h (name, FilterType.Crate, level) hr rfl
      simp [filter, hsplit]
      exact fun hc => absurd hc.symm hne
  simp [log_decision, hnone]

/-- C9 amended witness: a rule set with one non-empty-pattern `Crate` rule;
the empty-identifier decision equals the default-threshold test. -/
theorem c9_empty_source_amended_witness :
    log_decision [("x", FilterType.Crate, LevelFilter.Error)] LevelFilter.Info ""
      LevelFilter.Warn = !(LevelFilter.Info.rank < LevelFilter.Warn.rank) :=
  c9_empty_source_amended.2.2.2 [("x", FilterType.Crate, LevelFilter.Error)]
    LevelFilter.Info LevelFilter.Warn
    (by intro r hr; simp at hr; subst hr; simp)

/-- C10: `Logger::enabled` ignores its metadata and returns `true` for every
logger, severity and target; the filtering decision is made only inside
`log` — on a default logger a `Trace` record reports as enabled yet the
`log` call emits nothing. -/
theorem c10_enabled_always_true :
    (∀ (l : Logger) (level : LevelFilter) (target : String),
       l.enabled level target = true) ∧
    (Logger.new ["gen.log"]).enabled .Trace "noisy" = true ∧
    ((Logger.new ["gen.log"]).logRun "noisy" .Trace "m" "t" false).console = [] := by
  refine ⟨fun _ _ _ => rfl, rfl, by decide⟩

/-- C2: the accept decision is made by the first rule in insertion order
whose pattern matches the record's target, and scanning stops there whether
it accepts or rejects: with no earlier rule matching, the decision over
`pre ++ rule :: post` is `severity rank <= threshold rank`, independent of
every later rule and of the default threshold; in particular inserting
`(x, Crate, Warn)` before `(x, Crate, Trace)` rejects an `Info` record from
`x::y`, the later, laxer rule being unreachable. -/
theorem c2_first_match_decides :
    (∀ (pre post : List (String × FilterType × LevelFilter))
       (name : String) (filter_type : FilterType) (level : LevelFilter)
       (default_level : LevelFilter) (target : String) (msg_level : LevelFilter),
       (∀ r ∈ pre, filter r.1 r.2.1 target = false) →
       filter name filter_type target = true →
       log_decision (pre ++ (name, filter_type, level) :: post) default_level
           target msg_level =
         decide (msg_level.rank ≤ level.rank)) ∧
    log_decision [("x", FilterType.Crate, LevelFilter.Warn),
        ("x", FilterType.Crate, LevelFilter.Trace)] LevelFilter.Trace "x::y"
      LevelFilter.Info = false := by
  refine ⟨?_, by decide⟩
  intro pre post name filter_type level default_level target msg_level hpre hmatch
  have hloop := filterLoop_append pre ((name, filter_type, level) :: post)
    target msg_level hpre
  by_cases hlt : level.rank < msg_level.rank
  · simp [log_decision, hloop, filterLoop, hmatch, hlt, Nat.not_le_of_lt hlt]
  · simp [log_decision, hloop, filterLoop, hmatch, hlt, Nat.le_of_not_lt hlt]

/-- C2 witness: instantiating the first-match property at
`pre = [(a, Crate, Error)]`, rule `(x, Crate, Warn)`, `post` holding a
laxer rule for the same pattern, target `x::y`, severity `Info`: the
decision is reject (`Info` rank 3 is not at most `Warn` rank 2). -/
theorem c2_first_match_decides_witness :
    log_decision [("a", FilterType.Crate, LevelFilter.Error),
        ("x", FilterType.Crate, LevelFilter.Warn),
        ("x", FilterType.Crate, LevelFilter.Trace)] LevelFilter.Trace "x::y"
      LevelFilter.Info = decide (LevelFilter.Info.rank ≤ LevelFilter.Warn.rank) :=
  c2_first_match_decides.1 [("a", FilterType.Crate, LevelFilter.Error)]
    [("x", FilterType.Crate, LevelFilter.Trace)] "x" FilterType.Crate
    LevelFilter.Warn LevelFilter.Trace "x::y" LevelFilter.Info
    (by decide) (by decide)

/-- C3: a record whose target matches no rule is accepted iff its severity
rank is at most the default threshold's rank, under the discriminant order
`Off < Error < Warn < Info < Debug < Trace` (smaller rank = more severe);
concretely a `Trace` record is rejected under a `Warn` default, and an
`Error` record is accepted under every default threshold except `Off`. -/
theorem c3_default_fallback :
    (∀ (filters : List (String × FilterType × LevelFilter))
       (default_level : LevelFilter) (target : String) (msg_level : LevelFilter),
       (∀ r ∈ filters, filter r.1 r.2.1 target = false) →
       (log_decision filters default_level target msg_level = true ↔
         msg_level.rank ≤ default_level.rank)) ∧
    log_decision [] LevelFilter.Warn "s" LevelFilter.Trace = false ∧
    (∀ t : LevelFilter, t ≠ LevelFilter.Off →
       log_decision [] t "s" LevelFilter.Error = true) ∧
    log_decision [] LevelFilter.Off "s" LevelFilter.Error = false := by
  refine ⟨?_, by decide, ?_, by decide⟩
  · intro filters default_level target msg_level h
    have hnone := filterLoop_none filters target msg_level h
    simp [log_decision, hnone, Nat.not_lt]
  · intro t ht
    cases t with
    | Off => exact absurd rfl ht
    | Error => decide
    | Warn => decide
    | Info => decide
    | Debug => decide
    | Trace => decide

/-- C3 witness: no rule matches target `s` in a one-rule set for crate `x`,
and an `Info` record is accepted under the default `Info` threshold. -/
theorem c3_default_fallback_witness :
    (log_decision [("x", FilterType.Crate, LevelFilter.Warn)] LevelFilter.Info
        "s" LevelFilter.Info = true ↔
      LevelFilter.Info.rank ≤ LevelFilter.Info.rank) ∧
    log_decision [] LevelFilter.Debug "s" LevelFilter.Error = true :=
  ⟨c3_default_fallback.1 [("x", FilterType.Crate, LevelFilter.Warn)]
      LevelFilter.Info "s" LevelFilter.Info (by decide),
    c3_default_fallback.2.2.1 LevelFilter.Debug (by decide)⟩

/-- The first argument's rank never exceeds the rank of the `Ord::max` of
two levels. -/
theorem lf_max_left (a b : LevelFilter) : a.rank ≤ (lf_max a b).rank := by
  unfold lf_max
  by_cases h : a.rank < b.rank
  · simp only [if_pos h]; omega
  · simp only [if_neg h]; omega

/-- The second argument's rank never exceeds the rank of the `Ord::max` of
two levels. -/
theorem lf_max_right (a b : LevelFilter) : b.rank ≤ (lf_max a b).rank := by
  unfold lf_max
  by_cases h : a.rank < b.rank
  · simp only [if_pos h]; omega
  · simp only [if_neg h]; omega

/-- `Iterator::max` over the filter levels yields `none` only on an empty
rule list. -/
theorem max_filter_level_none
    (filters : List (String × FilterType × LevelFilter))
    (h : max_filter_level filters = none) : filters = [] := by
  cases filters with
  | nil => rfl
  | cons a as => simp [max_filter_level] at h

/-- Every rule's threshold rank is bounded by the maximum filter level. -/
theorem max_filter_level_le
    (filters : List (String × FilterType × LevelFilter))
    (m : LevelFilter) (hm : max_filter_level filters = some m) :
    ∀ r ∈ filters, r.2.2.rank ≤ m.rank := by
  induction filters generalizing m with
  | nil => intro r hr; cases hr
  | cons a as ih =>
    intro r hr
    cases hmm : max_filter_level as with
    | none =>
      have hnil := max_filter_level_none as hmm
      subst hnil
      simp [max_filter_level] at hm
      rcases List.mem_singleton.mp hr with rfl
      simp [← hm]
    | some mm =>
      simp [max_filter_level, hmm] at hm
      rcases List.mem_cons.mp hr with rfl | hras
      · rw [← hm]; exact lf_max_left _ _
      · exact le_trans (ih mm hmm r hras) (by rw [← hm]; exact lf_max_right _ _)

/-- The computed gate bounds the default threshold and every rule
threshold. -/
theorem maxLevel_bounds (l : Logger) :
    l.default_level.rank ≤ l.maxLevel.rank ∧
    ∀ r ∈ l.filters, r.2.2.rank ≤ l.maxLevel.rank := by
  constructor
  · unfold Logger.maxLevel
    exact lf_max_right _ _
  · intro r hr
    cases hm : max_filter_level l.filters with
    | none =>
      rw [max_filter_level_none _ hm] at hr
      cases hr
    | some m =>
      have h1 := max_filter_level_le l.filters m hm r hr
      unfold Logger.maxLevel
      rw [hm]
      exact le_trans h1 (lf_max_left _ _)

/-- C1 (code bug): enabling file logging against the path `log.txt`, whose
file already holds the bytes `hello`, reports success yet leaves the file
empty — `create_file` calls `std::fs::File::create`, which truncates an
existing file, defeating the `truncate(false)` of the subsequent open, so
the prior content is destroyed rather than preserved and appended to. -/
theorem c1_enable_truncates_existing_file :
    hello_world.files ["log.txt"] = some "hello" ∧
    (file_logger.enable_logger hello_world).1 = .ok () ∧
    (file_logger.enable_logger hello_world).2.files ["log.txt"] = some "" :=
  ⟨rfl, rfl, rfl⟩

/-- C4 counterexample: after a first successful enable with default `Info`
(gate `Info`), a second enable attempt with default `Trace` fails with
`LoggerAlreadySet` and leaves the first dispatcher installed — but the
process-wide gate has been overwritten to `Trace` by the failed attempt
(`log::set_max_level` runs before the singleton check), contradicting the
claim that the gate is unaltered. -/
theorem c4_second_enable_alters_gate_cex :
    (first_logger.enable_logger fresh_world).1 = .ok () ∧
    world_after_first.max_level = LevelFilter.Info ∧
    (second_logger.enable_logger world_after_first).1 = .error .LoggerAlreadySet ∧
    (second_logger.enable_logger world_after_first).2.internal_logger =
      some first_logger ∧
    (second_logger.enable_logger world_after_first).2.max_level =
      LevelFilter.Trace :=
  ⟨rfl, rfl, rfl, rfl, rfl⟩

/-- C4 (amended): the gate computed at enable time bounds (in permissiveness
rank) the default threshold and every rule threshold; once a dispatcher is
installed, a further enable attempt (without file logging) fails with
`LoggerAlreadySet` and does not replace the dispatcher — but it overwrites
the process-wide gate with its own computed value before failing, so the
gate is not fixed for the process lifetime. -/
theorem c4_gate_overwritten_amended :
    (∀ l : Logger,
       l.default_level.rank ≤ l.maxLevel.rank ∧
       ∀ r ∈ l.filters, r.2.2.rank ≤ l.maxLevel.rank) ∧
    (∀ (l l0 : Logger) (w : World),
       l.log_to_file = false →
       w.internal_logger = some l0 →
       (l.enable_logger w).1 = .error .LoggerAlreadySet ∧
       (l.enable_logger w).2.internal_logger = some l0 ∧
       (l.enable_logger w).2.max_level = l.maxLevel) := by
  refine ⟨maxLevel_bounds, ?_⟩
  intro l l0 w hl hw
  simp [Logger.enable_logger, hl, enable_logger_tail, hw]

/-- C4 amended witness: the second enable attempt of the counterexample
scenario, via the amended theorem. -/
theorem c4_gate_overwritten_amended_witness :
    (second_logger.enable_logger world_after_first).1 = .error .LoggerAlreadySet ∧
    (second_logger.enable_logger world_after_first).2.internal_logger =
      some first_logger ∧
    (second_logger.enable_logger world_after_first).2.max_level =
      second_logger.maxLevel :=
  c4_gate_overwritten_amended.2 second_logger first_logger world_after_first rfl rfl

/-- C7 counterexample: with the target path `logs` being a directory, the
builder configuration path does not return `InvalidFilename` to the caller:
`Builder::create` unwraps the `set_log_file_name` error and panics
(modelled as `none`), so configuring a malformed log filename can terminate
the process. -/
theorem c7_builder_panics_cex :
    dir_world.is_dir ["logs"] = true ∧
    dir_builder.create dir_world ["gen.log"] = none :=
  ⟨rfl, rfl⟩

/-- C7 (amended): `Logger::set_log_file_name` converts a directory target
path into the `InvalidFiname` error kind; but the builder path does not
return it — whenever the builder has file logging on and a stored filename
that is a directory, `Builder::create` panics (its documented behavior),
modelled as `none`. -/
theorem c7_invalid_filename_amended :
    (∀ (l : Logger) (w : World) (f : LogPath),
       w.is_dir f = true →
       l.set_log_file_name w f = .error .InvalidFiname) ∧
    (∀ (b : Builder) (w : World) (g f : LogPath),
       b.log_to_file = true →
       b.log_filename = some f →
       w.is_dir f = true →
       b.create w g = none) := by
  constructor
  · intro l w f hd
    simp [Logger.set_log_file_name, hd]
  · intro b w g f hb hf hd
    simp [Builder.create, hb, hf, Logger.set_log_file_name, hd]

/-- C7 amended witness: the directory-filename builder of the
counterexample scenario, via the amended theorem. -/
theorem c7_invalid_filename_amended_witness :
    (Logger.new ["gen.log"]).set_log_file_name dir_world ["logs"] =
      .error .InvalidFiname ∧
    dir_builder.create dir_world ["gen.log"] = none :=
  ⟨c7_invalid_filename_amended.1 (Logger.new ["gen.log"]) dir_world ["logs"] rfl,
   c7_invalid_filename_amended.2 dir_builder dir_world ["gen.log"] ["logs"] rfl rfl rfl⟩

/-- C8: for every accepted record, a file-sink write failure is never
propagated to the emitting call site: the `log` call still writes the
formatted line to the console sink whatever the file write outcome, and
when a file handle is present and its write fails, the failure is re-emitted
through the logging pipeline as a new record at `Error` severity. -/
theorem c8_file_failure_not_propagated :
    ∀ (l : Logger) (target : String) (msg_level : LevelFilter)
      (msg time : String) (file_write_fails : Bool),
      l.logAccept target msg_level = true →
      (l.logRun target msg_level msg time file_write_fails).console =
        [format_output l.use_color time (get_color msg_level)
          (format_level msg_level) target msg] ∧
      (l.log_file.isSome = true → file_write_fails = true →
        (l.logRun target msg_level msg time file_write_fails).reemitted =
          [(LevelFilter.Error, "Failed to write to a file")]) := by
  intro l target msg_level msg time fails hacc
  unfold Logger.logRun
  rw [hacc]
  cases hf : l.log_file <;> cases fails <;> simp [hf]

/-- C8 witness: a logger with an open file handle accepts an `Error` record;
with the file write failing, the console line is still produced and the
failure is re-emitted at `Error` severity. -/
theorem c8_file_failure_not_propagated_witness :
    (sink_logger.logRun "app" LevelFilter.Error "boom" "ts" true).console =
      [format_output sink_logger.use_color "ts" (get_color LevelFilter.Error)
        (format_level LevelFilter.Error) "app" "boom"] ∧
    (sink_logger.logRun "app" LevelFilter.Error "boom" "ts" true).reemitted =
      [(LevelFilter.Error, "Failed to write to a file")] :=
  ⟨(c8_file_failure_not_propagated sink_logger "app" LevelFilter.Error "boom"
      "ts" true rfl).1,
   (c8_file_failure_not_propagated sink_logger "app" LevelFilter.Error "boom"
      "ts" true rfl).2 rfl rfl⟩
